import Mathlib

/-!
Verification development for the powermeter-admin measurement-report
pipeline: form validation (`onSubmit`), report query construction
(`updateTable`), channel-name enrichment, and the statistics submit
handler, shallowly embedded from the TypeScript pages
(`Simple`/`Home`/`powermeter`/`statistics`).
-/

namespace PowermeterAdmin

/-- A calendar date, as the dayjs values handled by the report forms
(year, month 1..12, day 1..31). -/
structure Date where
  year : Int
  month : Nat
  day : Nat
  deriving DecidableEq, Repr

/-- Gregorian leap-year rule (dayjs calendar arithmetic). -/
def isLeapYear (y : Int) : Bool :=
  y % 4 == 0 && (y % 100 != 0 || y % 400 == 0)

/-- Number of days of month `m` in year `y` (dayjs calendar arithmetic). -/
def daysInMonth (y : Int) (m : Nat) : Nat :=
  if m = 2 then (if isLeapYear y then 29 else 28)
  else if m = 4 ∨ m = 6 ∨ m = 9 ∨ m = 11 then 30
  else 31

/-- `dayjs(d).add(1, "day")`: advance a date by one calendar day, rolling
over month and year boundaries. -/
def addOneDay (d : Date) : Date :=
  if d.day < daysInMonth d.year d.month then ⟨d.year, d.month, d.day + 1⟩
  else if d.month < 12 then ⟨d.year, d.month + 1, 1⟩
  else ⟨d.year + 1, 1, 1⟩

/-- Zero-pad a month/day number to two digits (dayjs `MM`/`DD`). -/
def pad2 (n : Nat) : String :=
  if n < 10 then "0" ++ toString n else toString n

/-- Zero-pad a year to four digits (dayjs `YYYY`). -/
def pad4 (y : Int) : String :=
  let n := y.toNat
  if n < 10 then "000" ++ toString n
  else if n < 100 then "00" ++ toString n
  else if n < 1000 then "0" ++ toString n
  else toString n

/-- `dayjs(d).format("YYYY-MM-DD")`. -/
def formatYYYYMMDD (d : Date) : String :=
  pad4 d.year ++ "-" ++ pad2 d.month ++ "-" ++ pad2 d.day

/-- `dayjs(a).isBefore(b)` at calendar-day granularity: lexicographic
order on (year, month, day). -/
def dateIsBefore (a b : Date) : Bool :=
  a.year < b.year ||
    (a.year == b.year &&
      (a.month < b.month || (a.month == b.month && a.day < b.day)))

/-- Fractional decimal digits of a rational `q` with `0 ≤ q < 1`,
up to `fuel` digits (JS number-to-string on terminating decimals). -/
def fracDigits : Nat → ℚ → String
  | 0, _ => ""
  | fuel + 1, q =>
    if q = 0 then ""
    else
      let q10 := q * 10
      let d := q10.floor.toNat
      toString d ++ fracDigits fuel (q10 - (d : ℚ))

/-- JS `String(n)` on a (decimal) numeric value, embedded on ℚ:
optional sign, integer part, then fractional digits when non-zero. -/
def jsNumberToString (q : ℚ) : String :=
  let a := |q|
  let ip : Nat := a.floor.toNat
  let frac := a - (ip : ℚ)
  let core :=
    if frac = 0 then toString ip
    else toString ip ++ "." ++ fracDigits 17 frac
  if q < 0 then "-" ++ core else core

/-- JS `String(x)` on a `number | null` value: `null` prints as "null". -/
def stringOfNullableNumber : Option ℚ → String
  | none => "null"
  | some q => jsNumberToString q

/-- The `FormValue` input of the Simple measurement report form
(types.d.ts), with dates already parsed and nullable fields as `Option`. -/
structure FormValue where
  fromDate : Date
  toDate : Date
  ipAddress : String
  channel : Option Int
  details : String
  multiplier : Option ℚ
  deriving DecidableEq, Repr

/-- JS `x > 0` where `x : number | null` (`null > 0` is false). -/
def jsGtZero : Option Int → Bool
  | none => false
  | some v => 0 < v

/-- The query string built by `updateTable` in the Simple report page:
`/api/measurements/report?fromdate=...&todate=...&ip=...&details=...&multiplier=...`
with `todate` advanced by one day, and `&channel=...` appended when
`params.channel > 0`. -/
def updateTablePath (params : FormValue) : String :=
  let path :=
    "/api/measurements/report?fromdate=" ++ formatYYYYMMDD params.fromDate
      ++ "&todate=" ++ formatYYYYMMDD (addOneDay params.toDate)
      ++ "&ip=" ++ params.ipAddress
      ++ "&details=" ++ params.details
      ++ "&multiplier=" ++ stringOfNullableNumber params.multiplier
  match params.channel with
  | some v => if 0 < v then path ++ "&channel=" ++ toString v else path
  | none => path

/-- Validation failures raised by `onSubmit` before any fetch, in
source order: details-too-fine, cross-year range, inverted range. -/
inductive ValidationError where
  | granularityTooFine
  | crossYearRange
  | invertedRange
  deriving DecidableEq, Repr

/-- The checks of `onSubmit` in the Simple report page, in source
order: (1) `fromDate` year below the current year with non-monthly
details, (2) `toDate` and `fromDate` in different years, (3) `toDate`
before `fromDate`; first failure wins. -/
def validateSimple (currentYear : Int) (d : FormValue) : Option ValidationError :=
  if d.fromDate.year < currentYear ∧ d.details ≠ "monthly" then
    some .granularityTooFine
  else if d.toDate.year ≠ d.fromDate.year then
    some .crossYearRange
  else if dateIsBefore d.toDate d.fromDate then
    some .invertedRange
  else
    none

/-- Outcome of one submit of the Simple report form: either a toast
with a validation error, or the path handed to `fetch`. -/
structure SubmitResult where
  toastError : Option ValidationError
  fetched : Option String
  deriving DecidableEq, Repr

/-- `onSubmit` of the Simple report page: run the validation checks;
on failure show the error, otherwise call `updateTable` (one fetch on
the built path). -/
def simpleOnSubmit (currentYear : Int) (d : FormValue) : SubmitResult :=
  match validateSimple currentYear d with
  | some e => ⟨some e, none⟩
  | none => ⟨none, some (updateTablePath d)⟩

/-- Join `key=value` pairs with `&` (spec-side description of a query
string as a parameter list). -/
def joinParams : List (String × String) → String
  | [] => ""
  | [p] => p.1 ++ "=" ++ p.2
  | p :: q :: rest => p.1 ++ "=" ++ p.2 ++ "&" ++ joinParams (q :: rest)

/-- The report query as the spec words it: one GET query encoding
`fromdate` = fromDate formatted YYYY-MM-DD, `todate` = toDate advanced
by one calendar day formatted YYYY-MM-DD, `ip`, `details`, the
multiplier (serialized even when null, appearing as `multiplier=null`),
and a `channel` parameter exactly when the channel filter is > 0. -/
def reportQuerySpec (params : FormValue) : String :=
  let ps : List (String × String) :=
    [("fromdate", formatYYYYMMDD params.fromDate),
     ("todate", formatYYYYMMDD (addOneDay params.toDate)),
     ("ip", params.ipAddress),
     ("details", params.details),
     ("multiplier", stringOfNullableNumber params.multiplier)]
    ++ (if jsGtZero params.channel then
          [("channel", toString (params.channel.getD 0))]
        else [])
  "/api/measurements/report?" ++ joinParams ps

/-- Split a character list on the dot separator (fields of a
dotted-quad address). -/
def splitOnDot : List Char → List (List Char)
  | [] => [[]]
  | c :: rest =>
    let r := splitOnDot rest
    if c = '.' then [] :: r
    else
      match r with
      | [] => [[c]]
      | g :: gs => (c :: g) :: gs

/-- Decimal value of a digit string. -/
def charsToNat (cs : List Char) : Nat :=
  cs.foldl (fun a c => a * 10 + (c.toNat - '0'.toNat)) 0

/-- One octet of the zod `z.string().ip("v4")` pattern: 1–3 decimal
digits, no leading zero, value 0..255. -/
def isIPv4Octet (cs : List Char) : Bool :=
  decide (0 < cs.length) && decide (cs.length ≤ 3)
    && cs.all (fun c => c.isDigit)
    && (decide (cs.length = 1) || decide (cs.headD ' ' ≠ '0'))
    && decide (charsToNat cs ≤ 255)

/-- The ipv4 check of the zod schema (`z.string().ip("v4")`): four
dot-separated decimal octets, each 0..255 without leading zeros. -/
def isIPv4 (s : String) : Bool :=
  let parts := splitOnDot s.data
  decide (parts.length = 4) && parts.all isIPv4Octet

/-- A channel record of the selected powermeter (`ChannelValue` in
types.d.ts), as used by the enrichment join. -/
structure ChannelValue where
  id : Option Int
  power_meter_id : Int
  channel : Int
  channel_name : String
  enabled : Bool
  deriving DecidableEq, Repr

/-- A measurement row returned by the report endpoint (`RecElement` in
types.d.ts); optional fields are `Option`. -/
structure RecElement where
  recorded_time : ℚ
  measured_value : ℚ
  channel : Int
  channel_name : Option String
  diff : Option ℚ
  from_utc_time : Option String
  to_utc_time : Option String
  from_server_time : Option String
  to_server_time : Option String
  from_local_time : Option String
  to_local_time : Option String
  deriving DecidableEq, Repr

/-- The per-record body of the `values.forEach` loop in `updateTable`:
filter the channels on equal channel number and, when a match exists,
copy the first match's `channel_name` onto the record. -/
def enrichRecord (channels : List ChannelValue) (r : RecElement) : RecElement :=
  match channels.filter (fun ch => ch.channel == r.channel) with
  | [] => r
  | c :: _ => { r with channel_name := some c.channel_name }

/-- The enrichment loop of `updateTable` over all fetched records. -/
def enrich (channels : List ChannelValue) (values : List RecElement) : List RecElement :=
  values.map (enrichRecord channels)

/-- The JSON body of a report response: either an array of rows, or an
object carrying an `err` field. -/
inductive ReportBody where
  | rows : List RecElement → ReportBody
  | errObj : String → ReportBody
  deriving DecidableEq, Repr

/-- The state `updateTable` leaves behind: the value passed to
`setMeasurements` and the error toasts shown. -/
structure ReportOutcome where
  measurements : ReportBody
  toasts : List String
  deriving DecidableEq, Repr

/-- The response handling of `updateTable` in the Simple report page:
enrich when the body is a non-empty array; then, when `values.err` is
truthy (an `err` field holding a non-empty string), show it and replace
`values` by `[]`; finally `setMeasurements(values)`. -/
def processReportBody (channels : List ChannelValue) (body : ReportBody) : ReportOutcome :=
  let values : ReportBody :=
    match body with
    | .rows rs => if 0 < rs.length then .rows (enrich channels rs) else .rows rs
    | .errObj e => .errObj e
  match values with
  | .errObj e => if e = "" then ⟨values, []⟩ else ⟨.rows [], [e]⟩
  | _ => ⟨values, []⟩

/-- Modelled from the spec: the multiplier enrichment of §4.3 is
performed by the reporting backend, which is not under src/ — the client
only serializes the multiplier into the query (`updateTable`) and
displays the returned `multipliedValue` column. Row shape from the
spec's `MeasurementRow`/`EnrichedRow`. -/
structure MeasurementRow where
  channelNumber : Int
  rawValue : ℚ
  multipliedValue : Option ℚ
  deriving DecidableEq, Repr

/-- Modelled from the spec: "If a `multiplier` was part of the
originating request, set `multipliedValue = rawValue * multiplier` on
every row; multiplier of `none`/null disables this field entirely (it
is omitted, not zero)." -/
def applyMultiplier (multiplier : Option ℚ) (rows : List MeasurementRow) : List MeasurementRow :=
  match multiplier with
  | none => rows
  | some m => rows.map (fun r => { r with multipliedValue := some (r.rawValue * m) })

/-- A row of the statistics endpoint response (`StatisticsRow` in
statistics.tsx). -/
structure StatisticsRow where
  asset_name : String
  power_meter_name : String
  channel_name : String
  avg : ℚ
  sum : ℚ
  deriving DecidableEq, Repr

/-- JS `Math.round`: round half toward positive infinity. -/
def jsRound (q : ℚ) : Int := ⌊q + 1 / 2⌋

/-- `Math.round(q * 10000) / 10000` as in the statistics submit handler. -/
def round4 (q : ℚ) : ℚ := (jsRound (q * 10000) : ℚ) / 10000

/-- The component state touched by the statistics page submit handler:
`measurements`, `allAvgConsumption`, `allSumConsumption`, `assetName`. -/
structure StatsState where
  measurements : List StatisticsRow
  allAvgConsumption : ℚ
  allSumConsumption : ℚ
  assetName : String
  deriving DecidableEq, Repr

/-- The initial state of the statistics page (`useState` defaults). -/
def initialStatsState : StatsState := ⟨[], 0, 0, ""⟩

/-- Outcome of one statistics submit: final state, the sequence of
`setIsLoading` writes, and the error toasts shown. -/
structure StatsOutcome where
  state : StatsState
  loadingWrites : List Bool
  toasts : List String
  deriving DecidableEq, Repr

/-- `onSubmit` of statistics.tsx: set loading, fetch; when the response
is ok (`resp = some result`), fold `sum`/`avg` over the rows, store both
rounded to 4 decimals, set `assetName` only when the result is
non-empty, store the rows; always clear loading. `resp = none` is a
non-2xx response. -/
def statisticsOnSubmit (prev : StatsState) (resp : Option (List StatisticsRow)) : StatsOutcome :=
  match resp with
  | none => ⟨prev, [true, false], []⟩
  | some result =>
    let sum := result.foldl (fun acc e => acc + e.sum) 0
    let avg := result.foldl (fun acc e => acc + e.avg) 0
    let st1 : StatsState :=
      { prev with
          allAvgConsumption := round4 avg
          allSumConsumption := round4 sum }
    let st2 : StatsState :=
      match result with
      | r :: _ => { st1 with assetName := r.asset_name }
      | [] => st1
    ⟨{ st2 with measurements := result }, [true, false], []⟩

/-- The statistics submit as a function of the response alone, run from
the freshly mounted page (the spec's pure `summarize`). -/
def summarize (rows : List StatisticsRow) : StatsState :=
  (statisticsOnSubmit initialStatsState (some rows)).state

/-- The render guard of the Combined fieldset in statistics.tsx:
`assetName ? <Fieldset .../> : <></>` — shown iff `assetName` is truthy
(a non-empty string). -/
def combinedPanelVisible (s : StatsState) : Bool := s.assetName ≠ ""

/-- Round half away from zero at 4 decimal places, as the spec words
the rounding of the statistics totals. -/
def roundHalfAwayFromZero4 (q : ℚ) : ℚ :=
  (if 0 ≤ q then (⌊q * 10000 + 1 / 2⌋ : ℚ) else -(⌊-(q * 10000) + 1 / 2⌋ : ℚ)) / 10000

/-! ## Helper lemmas -/

theorem updateTablePath_eq_reportQuerySpec (d : FormValue) :
    updateTablePath d = reportQuerySpec d := by
  apply String.ext
  unfold updateTablePath reportQuerySpec jsGtZero
  cases d.channel with
  | none => simp [joinParams]
  | some v =>
    by_cases hv : (0 : Int) < v
    · simp [joinParams, hv]
    · simp [joinParams, hv]

theorem enrichRecord_channel (channels : List ChannelValue) (r : RecElement) :
    (enrichRecord channels r).channel = r.channel := by
  unfold enrichRecord
  cases hf : channels.filter (fun ch => ch.channel == r.channel) with
  | nil => rfl
  | cons c cs => rfl

theorem enrichRecord_frame (channels : List ChannelValue) (r : RecElement) :
    enrichRecord channels r = { r with channel_name := (enrichRecord channels r).channel_name } := by
  unfold enrichRecord
  cases hf : channels.filter (fun ch => ch.channel == r.channel) with
  | nil => rfl
  | cons c cs => rfl

theorem enrichRecord_nomatch (channels : List ChannelValue) (r : RecElement)
    (h : channels.filter (fun ch => ch.channel == r.channel) = []) :
    (enrichRecord channels r).channel_name = r.channel_name := by
  unfold enrichRecord
  rw [h]

theorem foldl_add_eq_sum (f : StatisticsRow → ℚ) (l : List StatisticsRow) (a : ℚ) :
    l.foldl (fun acc e => acc + f e) a = a + (l.map f).sum := by
  induction l generalizing a with
  | nil => simp
  | cons x xs ih => simp [ih, add_assoc]

theorem floor_half : ⌊(1 : ℚ) / 2⌋ = 0 := by
  apply Int.floor_eq_zero_iff.mpr
  rw [Set.mem_Ico]
  norm_num

theorem round4_zero : round4 0 = 0 := by
  have h : ⌊(0 : ℚ) * 10000 + 1 / 2⌋ = 0 := by
    rw [zero_mul, zero_add, floor_half]
  simp [round4, jsRound, h]
  norm_num

theorem summarize_allSum (rows : List StatisticsRow) :
    (summarize rows).allSumConsumption = round4 ((rows.map (fun r => r.sum)).sum) := by
  have hs := foldl_add_eq_sum (fun r => r.sum) rows 0
  rw [zero_add] at hs
  cases rows with
  | nil => simp [summarize, statisticsOnSubmit, initialStatsState]
  | cons r rs => simp only [summarize, statisticsOnSubmit, hs]

theorem summarize_allAvg (rows : List StatisticsRow) :
    (summarize rows).allAvgConsumption = round4 ((rows.map (fun r => r.avg)).sum) := by
  have ha := foldl_add_eq_sum (fun r => r.avg) rows 0
  rw [zero_add] at ha
  cases rows with
  | nil => simp [summarize, statisticsOnSubmit, initialStatsState]
  | cons r rs => simp only [summarize, statisticsOnSubmit, ha]

/-! ## Claim theorems -/

/-- C1: for every request that passes validation, the report fetcher
builds exactly one GET query string encoding `fromdate` as fromDate
formatted YYYY-MM-DD, `todate` as toDate advanced by one calendar day
formatted YYYY-MM-DD, the target `ip`, the `details` granularity, and
the multiplier (serialized even when null, as `multiplier=null`), with
a `channel` parameter appended iff the channel filter is > 0. -/
theorem C1_report_query (currentYear : Int) (d : FormValue)
    (h : validateSimple currentYear d = none) :
    (simpleOnSubmit currentYear d).fetched = some (reportQuerySpec d) := by
  simp [simpleOnSubmit, h, updateTablePath_eq_reportQuerySpec]

/-- Witness for C1 at the spec's scenario: from 2024-01-01 to
2024-01-31, ip 10.0.0.5, daily, channel "all" (-1), multiplier null. -/
theorem C1_report_query_witness :
    validateSimple 2024 ⟨⟨2024, 1, 1⟩, ⟨2024, 1, 31⟩, "10.0.0.5", some (-1), "daily", none⟩ = none ∧
    (simpleOnSubmit 2024 ⟨⟨2024, 1, 1⟩, ⟨2024, 1, 31⟩, "10.0.0.5", some (-1), "daily", none⟩).fetched =
      some "/api/measurements/report?fromdate=2024-01-01&todate=2024-02-01&ip=10.0.0.5&details=daily&multiplier=null" :=
  ⟨by decide, by
    rw [C1_report_query 2024 ⟨⟨2024, 1, 1⟩, ⟨2024, 1, 31⟩, "10.0.0.5", some (-1), "daily", none⟩ (by decide)]
    rfl⟩

/-- C4 counterexample: a request with all fields present, a valid IPv4
address, `toDate < fromDate`, monthly granularity, but dates in
different calendar years is rejected with `crossYearRange`, not
`invertedRange` — the cross-year check runs first. -/
theorem C4_cross_year_counterexample :
    isIPv4 "10.0.0.5" = true ∧
    dateIsBefore ⟨2024, 6, 1⟩ ⟨2025, 6, 1⟩ = true ∧
    validateSimple 2025 ⟨⟨2025, 6, 1⟩, ⟨2024, 6, 1⟩, "10.0.0.5", some (-1), "monthly", none⟩ ≠
      some .invertedRange ∧
    validateSimple 2025 ⟨⟨2025, 6, 1⟩, ⟨2024, 6, 1⟩, "10.0.0.5", some (-1), "monthly", none⟩ =
      some .crossYearRange := by
  decide

/-- C4 amended: for every report request with a valid IPv4 address, if
`toDate < fromDate`, both dates fall in the same calendar year, and the
granularity check does not fire first (not: fromDate year below the
current year with non-monthly details), validation rejects with
`invertedRange`. -/
theorem C4_inverted_range (currentYear : Int) (d : FormValue)
    (_hip : isIPv4 d.ipAddress = true)
    (hgran : ¬(d.fromDate.year < currentYear ∧ d.details ≠ "monthly"))
    (hyear : d.toDate.year = d.fromDate.year)
    (hlt : dateIsBefore d.toDate d.fromDate = true) :
    validateSimple currentYear d = some .invertedRange := by
  simp [validateSimple, hgran, hyear, hlt]

/-- Witness for the amended C4: same-year inverted range, daily
granularity in the current year. -/
theorem C4_inverted_range_witness :
    validateSimple 2025 ⟨⟨2025, 3, 10⟩, ⟨2025, 3, 1⟩, "10.0.0.5", none, "daily", none⟩ =
      some .invertedRange :=
  C4_inverted_range 2025 ⟨⟨2025, 3, 10⟩, ⟨2025, 3, 1⟩, "10.0.0.5", none, "daily", none⟩
    (by decide) (by decide) (by decide) (by decide)

/-- C5: for every request where fromDate's year is strictly below the
current year and details ≠ monthly, submit rejects with
`granularityTooFine` and issues no fetch; the identical request with
monthly details passes this rule. -/
theorem C5_granularity_too_fine (currentYear : Int) (d : FormValue)
    (hy : d.fromDate.year < currentYear) (hd : d.details ≠ "monthly") :
    simpleOnSubmit currentYear d = ⟨some .granularityTooFine, none⟩ ∧
    validateSimple currentYear { d with details := "monthly" } ≠ some .granularityTooFine := by
  have h1 : validateSimple currentYear d = some .granularityTooFine := by
    simp [validateSimple, hy, hd]
  refine ⟨by simp [simpleOnSubmit, h1], ?_⟩
  simp only [validateSimple]
  split
  · simp_all
  · split
    · simp
    · split <;> simp

/-- Witness for C5: a daily request for the previous year is rejected
with `granularityTooFine` and not fetched; switched to monthly, this
rule no longer fires. -/
theorem C5_granularity_too_fine_witness :
    simpleOnSubmit 2025 ⟨⟨2024, 5, 1⟩, ⟨2024, 5, 2⟩, "10.0.0.5", none, "daily", none⟩ =
      ⟨some .granularityTooFine, none⟩ ∧
    validateSimple 2025 ⟨⟨2024, 5, 1⟩, ⟨2024, 5, 2⟩, "10.0.0.5", none, "monthly", none⟩ ≠
      some .granularityTooFine :=
  C5_granularity_too_fine 2025 ⟨⟨2024, 5, 1⟩, ⟨2024, 5, 2⟩, "10.0.0.5", none, "daily", none⟩
    (by decide) (by decide)

/-- C2 counterexample: the response body `{err: ""}` is an object
carrying an `err` field rather than an array, yet the handler surfaces
no error and does not set the displayed row set to the empty array —
the `if (values.err)` truthiness test skips the empty string. -/
theorem C2_empty_err_counterexample :
    (processReportBody [] (.errObj "")).toasts = [] ∧
    (processReportBody [] (.errObj "")).measurements ≠ .rows [] := by
  decide

/-- C2 amended: for every report response whose body is an object
carrying an `err` field holding a non-empty (truthy) string, the
handler surfaces the `err` message and sets the displayed row set to
the empty array, discarding any partial data. -/
theorem C2_err_surfaced (channels : List ChannelValue) (e : String) (h : e ≠ "") :
    processReportBody channels (.errObj e) = ⟨.rows [], [e]⟩ := by
  simp [processReportBody, h]

/-- Witness for the amended C2 at the spec's scenario: the body
`{err: "device offline"}` yields the toast and an empty row set. -/
theorem C2_err_surfaced_witness :
    processReportBody [] (.errObj "device offline") = ⟨.rows [], ["device offline"]⟩ :=
  C2_err_surfaced [] "device offline" (by decide)

/-- C3 (multiplier enrichment, modelled from the spec — the
computation lives in the reporting backend): with a non-null
multiplier, every row gets `multipliedValue = rawValue * multiplier`;
with a null multiplier the rows are untouched, so the field stays
absent on raw rows. -/
theorem C3_multiplied_value (m : ℚ) (rows : List MeasurementRow) :
    ((applyMultiplier (some m) rows).length = rows.length ∧
      ∀ i (h : i < rows.length) (h2 : i < (applyMultiplier (some m) rows).length),
        ((applyMultiplier (some m) rows).get ⟨i, h2⟩).multipliedValue =
          some ((rows.get ⟨i, h⟩).rawValue * m)) ∧
    applyMultiplier none rows = rows := by
  refine ⟨⟨by simp [applyMultiplier], ?_⟩, rfl⟩
  intro i h h2
  simp [applyMultiplier]

/-- Witness for C3 at the spec's scenario: multiplier 2.5 on rawValue
100 yields multipliedValue 250; multiplier null leaves the raw row
(and its absent multipliedValue) unchanged. -/
theorem C3_multiplied_value_witness :
    ((applyMultiplier (some (5 / 2)) [⟨1, 100, none⟩]).get ⟨0, by decide⟩).multipliedValue =
      some 250 ∧
    applyMultiplier none [(⟨1, 100, none⟩ : MeasurementRow)] = [⟨1, 100, none⟩] := by
  have h := C3_multiplied_value (5 / 2) [⟨1, 100, none⟩]
  have h1 := h.1.2 0 (by decide) (by decide)
  have h2 : ((100 : ℚ) * (5 / 2)) = 250 := by norm_num
  exact ⟨by rw [h1]; simp [h2], h.2⟩

/-- C6: enrichment preserves row count and order — the i-th output row
keeps the i-th input row's channel number and differs from it at most
in `channel_name`; a row whose channel matches no descriptor is
returned entirely unchanged (its `channel_name` stays unset). -/
theorem C6_enrich_frame (channels : List ChannelValue) (rows : List RecElement) :
    (enrich channels rows).length = rows.length ∧
    ∀ i (h : i < rows.length) (h2 : i < (enrich channels rows).length),
      ((enrich channels rows).get ⟨i, h2⟩).channel = (rows.get ⟨i, h⟩).channel ∧
      (enrich channels rows).get ⟨i, h2⟩ =
        { rows.get ⟨i, h⟩ with
            channel_name := ((enrich channels rows).get ⟨i, h2⟩).channel_name } ∧
      (channels.filter (fun ch => ch.channel == (rows.get ⟨i, h⟩).channel) = [] →
        ((enrich channels rows).get ⟨i, h2⟩).channel_name = (rows.get ⟨i, h⟩).channel_name) := by
  refine ⟨by simp [enrich], ?_⟩
  intro i h h2
  have hg : (enrich channels rows).get ⟨i, h2⟩ = enrichRecord channels (rows.get ⟨i, h⟩) := by
    simp [enrich]
  rw [hg]
  exact ⟨enrichRecord_channel channels (rows.get ⟨i, h⟩),
    enrichRecord_frame channels (rows.get ⟨i, h⟩),
    fun hnil => enrichRecord_nomatch channels (rows.get ⟨i, h⟩) hnil⟩

/-- Witness for C6: one channel descriptor (number 2) and one row on
channel 3 — the row keeps its channel number and its unset
channel_name. -/
theorem C6_enrich_frame_witness :
    ((enrich [⟨none, 1, 2, "Ch2", true⟩]
        [⟨0, 0, 3, none, none, none, none, none, none, none, none⟩]).get ⟨0, by decide⟩).channel = 3 ∧
    ((enrich [⟨none, 1, 2, "Ch2", true⟩]
        [⟨0, 0, 3, none, none, none, none, none, none, none, none⟩]).get ⟨0, by decide⟩).channel_name =
      none := by
  have h := (C6_enrich_frame [⟨none, 1, 2, "Ch2", true⟩]
      [⟨0, 0, 3, none, none, none, none, none, none, none, none⟩]).2 0 (by decide) (by decide)
  refine ⟨h.1, ?_⟩
  rw [h.2.2 (by decide)]
  rfl

/-- C7 counterexample: on a single row with `sum = 1/20000`
(0.00005), the displayed total is the rounded value 0.0001, not the
plain sum 0.00005 — the handler rounds both totals to 4 decimals, so
`totalSum` is not in general equal to `Σ row.sum`. -/
theorem C7_rounding_counterexample :
    (summarize [⟨"A", "p", "c", 0, 1 / 20000⟩]).allSumConsumption ≠ 1 / 20000 ∧
    (summarize [⟨"A", "p", "c", 0, 1 / 20000⟩]).allSumConsumption = 1 / 10000 := by
  have h : (summarize [⟨"A", "p", "c", 0, 1 / 20000⟩]).allSumConsumption = round4 (1 / 20000) := by
    rw [summarize_allSum]
    norm_num
  constructor
  · rw [h]
    norm_num [round4, jsRound]
  · rw [h]
    norm_num [round4, jsRound]

/-- C7 amended: `totalSum`/`totalAverage` are the plain sums of the
rows' `sum`/`avg` fields rounded to 4 decimal places (JS `Math.round`);
`assetName` is taken from the first row when one exists and stays at
the mount-time empty string on empty input, which therefore yields
totals 0 and assetName "". -/
theorem C7_summarize (rows : List StatisticsRow) :
    (summarize rows).allSumConsumption = round4 ((rows.map (fun r => r.sum)).sum) ∧
    (summarize rows).allAvgConsumption = round4 ((rows.map (fun r => r.avg)).sum) ∧
    (summarize rows).assetName = (match rows with | [] => "" | r :: _ => r.asset_name) ∧
    (summarize rows).measurements = rows ∧
    (summarize ([] : List StatisticsRow)).allSumConsumption = 0 ∧
    (summarize ([] : List StatisticsRow)).allAvgConsumption = 0 ∧
    (summarize ([] : List StatisticsRow)).assetName = "" := by
  refine ⟨summarize_allSum rows, summarize_allAvg rows, ?_, ?_, ?_, ?_, rfl⟩
  · cases rows with
    | nil => rfl
    | cons r rs => rfl
  · cases rows with
    | nil => rfl
    | cons r rs => rfl
  · rw [summarize_allSum]
    simpa using round4_zero
  · rw [summarize_allAvg]
    simpa using round4_zero

/-- C8 counterexample: on a single row with `avg = -1/20000`
(-0.00005), round-half-away-from-zero would give -0.0001, but the
handler (JS `Math.round`, half toward +∞) yields 0 — negative exact
halves round toward zero, not away. -/
theorem C8_half_away_counterexample :
    roundHalfAwayFromZero4 (-1 / 20000) = -1 / 10000 ∧
    (summarize [⟨"A", "p", "c", -1 / 20000, 0⟩]).allAvgConsumption = 0 ∧
    (summarize [⟨"A", "p", "c", -1 / 20000, 0⟩]).allAvgConsumption ≠
      roundHalfAwayFromZero4 (-1 / 20000) := by
  have h : (summarize [⟨"A", "p", "c", -1 / 20000, 0⟩]).allAvgConsumption =
      round4 (-1 / 20000) := by
    rw [summarize_allAvg]
    norm_num
  have h0 : round4 (-1 / 20000) = 0 := by
    norm_num [round4, jsRound]
  have ha : roundHalfAwayFromZero4 (-1 / 20000) = -1 / 10000 := by
    norm_num [roundHalfAwayFromZero4]
  refine ⟨ha, by rw [h, h0], ?_⟩
  rw [h, h0, ha]
  norm_num

/-- C8 amended: both statistics totals are rounded to 4 decimal places
with JS `Math.round` semantics — `⌊x * 10000 + 1/2⌋ / 10000`, round
half toward positive infinity (so negative exact halves round toward
zero rather than away from it). -/
theorem C8_round_half_up (rows : List StatisticsRow) :
    (summarize rows).allSumConsumption =
      (⌊(rows.map (fun r => r.sum)).sum * 10000 + 1 / 2⌋ : ℚ) / 10000 ∧
    (summarize rows).allAvgConsumption =
      (⌊(rows.map (fun r => r.avg)).sum * 10000 + 1 / 2⌋ : ℚ) / 10000 :=
  ⟨summarize_allSum rows, summarize_allAvg rows⟩

/-- C9: when the statistics endpoint responds non-2xx (`resp = none`),
the submit handler leaves the measurement rows, both totals and the
asset name unchanged, surfaces no error toast, and only toggles the
loading flag on and back off. -/
theorem C9_non_ok_keeps_state (prev : StatsState) :
    statisticsOnSubmit prev none = ⟨prev, [true, false], []⟩ := rfl

/-- C10: a successful statistics query with an empty row array keeps
the previous `assetName` (it is assigned only on a non-empty result),
zeroes both totals, empties the rows, and — the previous name being
non-empty — keeps the Combined panel visible. -/
theorem C10_assetName_kept (prev : StatsState) (h : prev.assetName ≠ "") :
    (statisticsOnSubmit prev (some [])).state.assetName = prev.assetName ∧
    (statisticsOnSubmit prev (some [])).state.allAvgConsumption = 0 ∧
    (statisticsOnSubmit prev (some [])).state.allSumConsumption = 0 ∧
    (statisticsOnSubmit prev (some [])).state.measurements = [] ∧
    combinedPanelVisible (statisticsOnSubmit prev (some [])).state = true := by
  refine ⟨rfl, round4_zero, round4_zero, rfl, ?_⟩
  simpa [combinedPanelVisible] using h

/-- Witness for C10: after a query for "Asset A", an empty result keeps
the name, zeroes the totals and keeps the panel shown. -/
theorem C10_assetName_kept_witness :
    (statisticsOnSubmit ⟨[], 5, 7, "Asset A"⟩ (some [])).state.assetName = "Asset A" ∧
    (statisticsOnSubmit ⟨[], 5, 7, "Asset A"⟩ (some [])).state.allAvgConsumption = 0 ∧
    (statisticsOnSubmit ⟨[], 5, 7, "Asset A"⟩ (some [])).state.allSumConsumption = 0 ∧
    (statisticsOnSubmit ⟨[], 5, 7, "Asset A"⟩ (some [])).state.measurements = [] ∧
    combinedPanelVisible (statisticsOnSubmit ⟨[], 5, 7, "Asset A"⟩ (some [])).state = true :=
  C10_assetName_kept ⟨[], 5, 7, "Asset A"⟩ (by decide)

end PowermeterAdmin
